import Mathlib

/-!
Verification of the `arger` command-line argument parsing library
(`src/include/arger.hpp`, namespace `args`, class `arger_c`).

The C++ class is embedded as a pure state-passing model: heap-allocated
`argument_s` cells become an arena `cells : List argument_s` indexed by `Nat`
(the shared `argument_s*` pointers become indices), the `unordered_map` becomes
an association list with unique keys, and the two user callbacks (post-help and
error) are modelled as pure side effects: the state records whether each is
registered, and every invocation is appended to an observable `events` trace.
`std::stringstream` extraction used by `get_arg<T>` is modelled following the
C++11 semantics of `operator>>` (verified against libstdc++): for `bool`
without `boolalpha` the text is read as a decimal long, a failed extraction
stores 0, and the bool is false exactly when that long is 0; for `std::string`
the first whitespace-delimited word is read.
-/

namespace args

/-- Model of the C++ `errors_e` enumeration. -/
inductive errors_e where
  | DUPLICATE_DEFINITION
  | MISSING_REQUIRED_ARGUMENT
  | INCORRECT_ARGUMENT_TYPE
  | EXPECTED_VALUE
deriving DecidableEq

/-- Model of C++ `error_to_string` (the `default:` branch is unreachable). -/
def error_to_string : errors_e → String
  | .DUPLICATE_DEFINITION => "Duplicate definition"
  | .MISSING_REQUIRED_ARGUMENT => "Missing required argument"
  | .INCORRECT_ARGUMENT_TYPE => "Incorrect argument type"
  | .EXPECTED_VALUE => "Expected value"

/-- Model of `arg_t = std::variant<std::string, int64_t, double, bool>`.
The `double` alternative is not modelled (floating point; no claim uses it). -/
inductive arg_t where
  | str (s : String)
  | i64 (i : Int)
  | boolean (b : Bool)
deriving DecidableEq

/-- Model of the private member `to_string(const arg_t&)`.
`std::to_string` of a `bool` promotes to `int`, giving `"1"` / `"0"`. -/
def arg_to_string : arg_t → String
  | .str s => s
  | .i64 i => toString i
  | .boolean b => if b then "1" else "0"

/-- Observable side effects: help-text emission and callback invocations.
The callbacks take control but, modelled as pure side effects, return without
touching the parser. -/
inductive event_e where
  | help_printed
  | post_help_called
  | error_called (e : errors_e) (ctx : String)
deriving DecidableEq

/-- C++ `argument_s`: the runtime value cell shared by all aliases of one
definition. -/
structure argument_s where
  req_and_found : Option Bool := none
  value : String := ""
  is_flag : Bool := false
deriving DecidableEq

/-- C++ `arg_def_s`. `allocated_arg` is the index of the definition's cell in
the arena (modelling the heap pointer shared with `arguments_map_`). -/
structure arg_def_s where
  args : List String
  description : String
  default_value : String
  allocated_arg : Nat
deriving DecidableEq

/-- The state of a C++ `arger_c` object. `has_post_help_cb` / `has_error_cb`
record whether the respective callback is registered. -/
structure arger_c where
  has_post_help_cb : Bool
  has_error_cb : Bool
  auto_help_enable : Bool
  unmatchd_args : List String
  argument_defs : List arg_def_s
  cells : List argument_s
  arguments_map : List (String × Nat)
  program_name : String
  events : List event_e
deriving DecidableEq

/-- The constructor `arger_c(post_help_cb)`: member initialisers give
`error_cb_{nullptr}`, `auto_help_enable_{true}`, empty containers. -/
def arger_init (has_post_help_cb : Bool) : arger_c :=
  { has_post_help_cb := has_post_help_cb, has_error_cb := false,
    auto_help_enable := true, unmatchd_args := [], argument_defs := [],
    cells := [], arguments_map := [], program_name := "", events := [] }

/-- Member `set_error_cb`. -/
def set_error_cb (s : arger_c) : arger_c := { s with has_error_cb := true }

/-- Member `set_auto_help`. -/
def set_auto_help (s : arger_c) (enable : Bool) : arger_c :=
  { s with auto_help_enable := enable }

/-- Lookup in `arguments_map_` (`find` on a map with unique keys). -/
def map_find (m : List (String × Nat)) (k : String) : Option Nat :=
  (m.find? (fun p => p.1 == k)).map Prod.snd

/-- Dereference a cell pointer. Every index stored in `argument_defs` or
`arguments_map` is in range by construction; the default is never reached
from states built through the API. -/
def get_cell (s : arger_c) (ci : Nat) : argument_s := s.cells.getD ci {}

/-- The pattern `if (error_cb_) { error_cb_(e, ctx); }`. -/
def emit_error (s : arger_c) (e : errors_e) (ctx : String) : arger_c :=
  if s.has_error_cb then { s with events := s.events ++ [.error_called e ctx] }
  else s

/-- The `std::string` comparison ordering a `std::set<std::string>`:
lexicographic, byte-wise by unsigned char (identical to code-point order on
the ASCII alias strings involved). -/
def chars_lt : List Char → List Char → Bool
  | [], [] => false
  | [], _ :: _ => true
  | _ :: _, [] => false
  | a :: as, b :: bs =>
    if a.toNat < b.toNat then true
    else if b.toNat < a.toNat then false
    else chars_lt as bs

/-- See `chars_lt`. -/
def str_lt (a b : String) : Bool := chars_lt a.toList b.toList

/-- Ordered insertion into a sorted duplicate-free list: one step of building a
`std::set<std::string>`. -/
def set_insert (a : String) : List String → List String
  | [] => [a]
  | b :: bs =>
    if a = b then b :: bs
    else if str_lt a b then a :: b :: bs
    else b :: set_insert a bs

/-- Construction of the `std::set<std::string>` argument at the call sites of
`add_argument` / `add_flag` (sorts and deduplicates the brace-enclosed list). -/
def make_set (l : List String) : List String :=
  l.foldl (fun acc a => set_insert a acc) []

/-- Private member `add_arg`: check every alias against the index, fail with
`DUPLICATE_DEFINITION` on the first hit (in set order), otherwise allocate one
new cell, append the definition, and index every alias to the new cell. -/
def add_arg (s : arger_c) (arg : List String) (description : String)
    (default_value : arg_t) (required : Bool) (is_flag : Bool) :
    arger_c × Bool :=
  match arg.find? (fun a => (map_find s.arguments_map a).isSome) with
  | some a => (emit_error s .DUPLICATE_DEFINITION a, false)
  | none =>
    let cell : argument_s :=
      { req_and_found := if required then some false else none,
        value := arg_to_string default_value, is_flag := is_flag }
    let ci := s.cells.length
    ({ s with
        cells := s.cells ++ [cell],
        argument_defs := s.argument_defs ++
          [{ args := arg, description := description,
             default_value := arg_to_string default_value,
             allocated_arg := ci }],
        arguments_map := s.arguments_map ++ arg.map (fun a => (a, ci)) },
      true)

/-- Member `add_argument` (value-bearing option; C++ defaults:
`default_value = ""`, `required = false`). -/
def add_argument (s : arger_c) (arg : List String) (description : String)
    (default_value : arg_t := .str "") (required : Bool := false) :
    arger_c × Bool :=
  add_arg s (make_set arg) description default_value required false

/-- Member `add_flag`. -/
def add_flag (s : arger_c) (arg : List String) (description : String)
    (default_value : Bool) (required : Bool := false) : arger_c × Bool :=
  add_arg s (make_set arg) description (.boolean default_value) required true

/-- Private member `print_help`: emits the help text (modelled as one event;
the rendered text itself decides no claim) and then, at its end, invokes the
post-help callback if registered. -/
def print_help (s : arger_c) : arger_c :=
  let s₁ : arger_c := { s with events := s.events ++ [.help_printed] }
  if s₁.has_post_help_cb then
    { s₁ with events := s₁.events ++ [.post_help_called] }
  else s₁

/-- The help branch of the `parse` loop: `print_help();` followed by
`if (post_help_cb_) { post_help_cb_(); }`. -/
def help_step (s : arger_c) : arger_c :=
  let s₁ : arger_c := print_help s
  if s₁.has_post_help_cb then
    { s₁ with events := s₁.events ++ [.post_help_called] }
  else s₁

/-- Private member `conditionally_mark_found`, acting on a cell index. -/
def conditionally_mark_found (s : arger_c) (ci : Nat) : arger_c :=
  let c : argument_s := get_cell s ci
  let c₁ : argument_s := { c with req_and_found := some true }
  if c.req_and_found.isSome then { s with cells := s.cells.set ci c₁ }
  else s

/-- Private member `handle_flag`: the cell's value becomes `"true"`, then
`conditionally_mark_found`. -/
def handle_flag (s : arger_c) (ci : Nat) : arger_c :=
  let c₁ : argument_s := { get_cell s ci with value := "true" }
  conditionally_mark_found { s with cells := s.cells.set ci c₁ } ci

/-- The storing part of private member `handle_argument`: the following token
`v` is stored verbatim, then `conditionally_mark_found`. The bounds check and
the cursor advance of `handle_argument` live in `scan` below. -/
def handle_argument (s : arger_c) (ci : Nat) (v : String) : arger_c :=
  let c₁ : argument_s := { get_cell s ci with value := v }
  conditionally_mark_found { s with cells := s.cells.set ci c₁ } ci

/-- The token loop of `parse` (`for (std::size_t i = 0; ...)`), written as
recursion on the remaining tokens. The help check precedes the index lookup;
an unknown token is appended to `unmatchd_args_`; a flag consumes only itself;
a value-bearing option with no following token (`idx + 1 >= args.size()`)
fails with `EXPECTED_VALUE` and aborts, otherwise it consumes the following
token as its value (`++idx` makes the loop skip it). -/
def scan : arger_c → List String → arger_c × Bool
  | s, [] => (s, true)
  | s, t :: rest =>
    if s.auto_help_enable && (t == "-h" || t == "--help") then
      scan (help_step s) rest
    else
      match map_find s.arguments_map t with
      | none => scan { s with unmatchd_args := s.unmatchd_args ++ [t] } rest
      | some ci =>
        if (get_cell s ci).is_flag then
          scan (handle_flag s ci) rest
        else
          match rest with
          | [] => (emit_error s .EXPECTED_VALUE t, false)
          | v :: rest2 => scan (handle_argument s ci v) rest2

/-- The final loop of `parse`: in registration order, the first definition with
`req_and_found.has_value() && !req_and_found.value()` triggers
`MISSING_REQUIRED_ARGUMENT` with the space-concatenated alias list and an
immediate `return false`. -/
def concat_aliases (l : List String) : String :=
  l.foldl (fun acc a => acc ++ a ++ " ") ""

/-- See `concat_aliases`. -/
def required_check : arger_c → List arg_def_s → arger_c × Bool
  | s, [] => (s, true)
  | s, d :: ds =>
    if (get_cell s d.allocated_arg).req_and_found = some false then
      (emit_error s .MISSING_REQUIRED_ARGUMENT (concat_aliases d.args), false)
    else required_check s ds

/-- Member `parse(argc, argv)` on the token list `argv[0..argc)`. The source
reads `args[0]` unconditionally; `argc = 0` is out of the C++ contract
(out-of-range access), so the model keeps `program_name_` unchanged there. -/
def parse (s : arger_c) (args : List String) : arger_c × Bool :=
  let s₀ := { s with program_name := args.headD s.program_name }
  match scan s₀ args with
  | (s₁, false) => (s₁, false)
  | (s₁, true) => required_check s₁ s₁.argument_defs

/-- Whitespace of the classic "C" locale used by `stringstream` extraction. -/
def is_space (c : Char) : Bool :=
  c = ' ' || c = '\t' || c = '\n' || c = '\x0b' || c = '\x0c' || c = '\r'

/-- Decimal digit. -/
def is_digit (c : Char) : Bool := '0' ≤ c && c ≤ '9'

/-- Value of a digit run. -/
def digits_val (cs : List Char) : Int :=
  cs.foldl (fun a c => a * 10 + (Int.ofNat (c.toNat - '0'.toNat))) 0

/-- The `long` stored by `num_get` for `ss >> (bool&)` without `boolalpha`
(C++11, default `dec` base, "C" locale): skip whitespace, optional sign, then
decimal digits; a failed extraction stores 0. Out-of-range clamping is not
modelled (no claim involves values near the `long` bounds). If the text is
empty or all whitespace the C++ value is formally indeterminate (the `bool`
local of `get_arg` is read uninitialised); the model returns 0, which is never
relied on: no claim retrieves an empty stored text. -/
def read_long (v : String) : Int :=
  let cs := v.toList.dropWhile is_space
  match cs with
  | '-' :: r =>
    let ds := r.takeWhile is_digit
    if ds = [] then 0 else - digits_val ds
  | '+' :: r =>
    let ds := r.takeWhile is_digit
    if ds = [] then 0 else digits_val ds
  | _ =>
    let ds := cs.takeWhile is_digit
    if ds = [] then 0 else digits_val ds

/-- `ss >> (bool&)`: the stored bool is `false` iff the extracted long is 0
(0 stores false, 1 stores true, anything else stores true with `failbit`). -/
def sstream_read_bool (v : String) : Bool := read_long v != 0

/-- `ss >> (std::string&)`: skip whitespace, then the maximal run of
non-whitespace characters (empty input leaves the default-constructed `""`). -/
def sstream_read_string (v : String) : String :=
  String.mk ((v.toList.dropWhile is_space).takeWhile (fun c => !is_space c))

/-- Member template `get_arg<T>` instantiated at `T = std::string`. -/
def get_arg_string (s : arger_c) (arg : String) : Option String :=
  match map_find s.arguments_map arg with
  | none => none
  | some ci => some (sstream_read_string (get_cell s ci).value)

/-- Member template `get_arg<T>` instantiated at `T = bool`. -/
def get_arg_bool (s : arger_c) (arg : String) : Option Bool :=
  match map_find s.arguments_map arg with
  | none => none
  | some ci => some (sstream_read_bool (get_cell s ci).value)

/-- Member `get_program_name`. -/
def get_program_name (s : arger_c) : String := s.program_name

/-- Member `get_unmatched_args`. -/
def get_unmatched_args (s : arger_c) : List String := s.unmatchd_args

/-- Scenario state: one value-bearing option with alias `--name`, default
`"x"`, not required, no callbacks registered. -/
def sC1 : arger_c :=
  (add_argument (arger_init false) ["--name"] "name" (.str "x") false).1

/-- Scenario state: one flag `-b` with default `false`, not required. -/
def sC2 : arger_c := (add_flag (arger_init false) ["-b"] "A bool" false false).1

/-- Scenario state: post-help callback registered, auto-help on (default),
no definitions. -/
def sC3 : arger_c := arger_init true

/-- Scenario state: required flag with aliases `{-b, --bool}` and an error
callback registered. -/
def sC4 : arger_c :=
  (add_flag (set_error_cb (arger_init false)) ["-b", "--bool"] "A bool" false
    true).1

/-- Scenario state: one value-bearing option `-n` with an error callback. -/
def sC6 : arger_c :=
  (add_argument (set_error_cb (arger_init false)) ["-n"] "name" (.str "x")
    false).1

/-- Scenario state: a value-bearing option with aliases `{-b, --bool}`. -/
def sC8opt : arger_c :=
  (add_argument (arger_init false) ["-b", "--bool"] "A bool" (.str "x")
    false).1

/-- Scenario state: a flag with aliases `{-b, --bool}`. -/
def sC8flag : arger_c :=
  (add_flag (arger_init false) ["-b", "--bool"] "A bool" false false).1

/-- Agreement of two parser states on everything except the error-callback
flag and the event trace: the registration/parse outcome and all
caller-observable state (cells, unmatched tokens, program name, registry,
index) coincide. Used to state that the error callback never influences
control flow (C9). -/
def eqv_except_error_cb (s₁ s₂ : arger_c) : Prop :=
  s₁.has_post_help_cb = s₂.has_post_help_cb ∧
  s₁.auto_help_enable = s₂.auto_help_enable ∧
  s₁.unmatchd_args = s₂.unmatchd_args ∧
  s₁.argument_defs = s₂.argument_defs ∧
  s₁.cells = s₂.cells ∧
  s₁.arguments_map = s₂.arguments_map ∧
  s₁.program_name = s₂.program_name

/-- Agreement of two runtime value cells up to the stored text of value-
bearing options: kind and required-tracking state coincide, and for flags the
stored text coincides as well. Used for the alias-interchangeability claim
(C8), where substituting one alias of a flag for another may only change
which raw token a (different) option definition captured as its value. -/
def cellR (c₁ c₂ : argument_s) : Prop :=
  c₁.is_flag = c₂.is_flag ∧ c₁.req_and_found = c₂.req_and_found ∧
  (c₁.is_flag = true → c₁.value = c₂.value)

/-- Agreement of two parser states up to the program name and the stored
texts of value-bearing options (see `cellR`). -/
def flagR (s₁ s₂ : arger_c) : Prop :=
  s₁.has_post_help_cb = s₂.has_post_help_cb ∧
  s₁.has_error_cb = s₂.has_error_cb ∧
  s₁.auto_help_enable = s₂.auto_help_enable ∧
  s₁.unmatchd_args = s₂.unmatchd_args ∧
  s₁.argument_defs = s₂.argument_defs ∧
  s₁.arguments_map = s₂.arguments_map ∧
  s₁.events = s₂.events ∧
  s₁.cells.length = s₂.cells.length ∧
  ∀ j : Nat, cellR (get_cell s₁ j) (get_cell s₂ j)

/-! ### Basic equations and preservation lemmas -/

theorem scan_nil (s : arger_c) : scan s [] = (s, true) := rfl

theorem scan_cons_help (s : arger_c) (t : String) (rest : List String)
    (hh : (s.auto_help_enable && (t == "-h" || t == "--help")) = true) :
    scan s (t :: rest) = scan (help_step s) rest := by
  simp [scan, hh]

theorem scan_cons_unmatched (s : arger_c) (t : String) (rest : List String)
    (hh : (s.auto_help_enable && (t == "-h" || t == "--help")) = false)
    (hm : map_find s.arguments_map t = none) :
    scan s (t :: rest) =
      scan { s with unmatchd_args := s.unmatchd_args ++ [t] } rest := by
  simp [scan, hh, hm]

theorem scan_cons_flag (s : arger_c) (t : String) (rest : List String)
    (ci : Nat)
    (hh : (s.auto_help_enable && (t == "-h" || t == "--help")) = false)
    (hm : map_find s.arguments_map t = some ci)
    (hfl : (get_cell s ci).is_flag = true) :
    scan s (t :: rest) = scan (handle_flag s ci) rest := by
  simp [scan, hh, hm, hfl]

theorem scan_cons_opt_nil (s : arger_c) (t : String) (ci : Nat)
    (hh : (s.auto_help_enable && (t == "-h" || t == "--help")) = false)
    (hm : map_find s.arguments_map t = some ci)
    (hfl : (get_cell s ci).is_flag = false) :
    scan s [t] = (emit_error s .EXPECTED_VALUE t, false) := by
  simp [scan, hh, hm, hfl]

theorem scan_cons_opt_cons (s : arger_c) (t v : String)
    (rest2 : List String) (ci : Nat)
    (hh : (s.auto_help_enable && (t == "-h" || t == "--help")) = false)
    (hm : map_find s.arguments_map t = some ci)
    (hfl : (get_cell s ci).is_flag = false) :
    scan s (t :: v :: rest2) = scan (handle_argument s ci v) rest2 := by
  simp [scan, hh, hm, hfl]

theorem parse_of_scan_false (s : arger_c) (args : List String)
    (s₁ : arger_c)
    (h : scan { s with program_name := args.headD s.program_name } args =
      (s₁, false)) :
    parse s args = (s₁, false) := by
  simp only [parse]
  rw [h]

theorem parse_of_scan_true (s : arger_c) (args : List String) (s₁ : arger_c)
    (h : scan { s with program_name := args.headD s.program_name } args =
      (s₁, true)) :
    parse s args = required_check s₁ s₁.argument_defs := by
  simp only [parse]
  rw [h]

theorem required_check_find? (s : arger_c) (defs : List arg_def_s) :
    required_check s defs =
      match defs.find?
          (fun d => decide
            ((get_cell s d.allocated_arg).req_and_found = some false)) with
      | some d =>
        (emit_error s .MISSING_REQUIRED_ARGUMENT (concat_aliases d.args),
          false)
      | none => (s, true) := by
  induction defs with
  | nil => rfl
  | cons d ds ih =>
    by_cases hc : (get_cell s d.allocated_arg).req_and_found = some false
    · rw [required_check, if_pos hc,
        List.find?_cons_of_pos _ (by simpa using hc)]
    · rw [required_check, if_neg hc,
        List.find?_cons_of_neg _ (by simpa using hc), ih]

theorem get_cell_set (s : arger_c) (ci : Nat) (c : argument_s)
    (h : ci < s.cells.length) :
    get_cell { s with cells := s.cells.set ci c } ci = c := by
  simp [get_cell, List.getD_eq_getElem?_getD, List.getElem?_set_self h]

theorem conditionally_mark_found_value (s : arger_c) (ci : Nat)
    (hci : ci < s.cells.length) :
    (get_cell (conditionally_mark_found s ci) ci).value =
      (get_cell s ci).value := by
  simp only [conditionally_mark_found]
  by_cases hr : (get_cell s ci).req_and_found.isSome = true
  · simp only [hr, if_true]
    rw [get_cell_set s ci _ hci]
  · simp [hr]

theorem handle_argument_value (s : arger_c) (ci : Nat) (v : String)
    (hci : ci < s.cells.length) :
    (get_cell (handle_argument s ci v) ci).value = v := by
  simp only [handle_argument]
  rw [conditionally_mark_found_value _ _ (by simpa using hci),
    get_cell_set s ci _ hci]

theorem emit_error_def (s : arger_c) (e : errors_e) (ctx : String) :
    emit_error s e ctx =
      { s with events := s.events ++
          (if s.has_error_cb then [.error_called e ctx] else []) } := by
  unfold emit_error
  by_cases h : s.has_error_cb = true
  · rw [if_pos h, if_pos h]
  · rw [if_neg h, if_neg h]
    simp

theorem help_step_def (s : arger_c) :
    help_step s =
      { s with events := s.events ++ [.help_printed] ++
          (if s.has_post_help_cb then [.post_help_called, .post_help_called]
           else []) } := by
  unfold help_step print_help
  by_cases h : s.has_post_help_cb = true
  · simp only [h, if_true]
    simp
  · simp only [h, if_false]
    simp

theorem map_find_isSome_of_mem (m : List (String × Nat)) (p : String × Nat)
    (k : String) (hp : p ∈ m) (hk : p.1 = k) :
    (map_find m k).isSome = true := by
  unfold map_find
  rcases hf : m.find? (fun q => q.1 == k) with _ | q
  · exact absurd (by simp [hk]) (List.find?_eq_none.mp hf p hp)
  · simp [hf]

theorem map_find_append_of_none (m₁ m₂ : List (String × Nat)) (k : String)
    (h : map_find m₁ k = none) :
    map_find (m₁ ++ m₂) k = map_find m₂ k := by
  unfold map_find at *
  rw [List.find?_append]
  rcases hf : m₁.find? (fun p => p.1 == k) with _ | p
  · rw [hf]
    rfl
  · simp [hf] at h

theorem map_find_map_const (l : List String) (ci : Nat) (a : String)
    (ha : a ∈ l) :
    map_find (l.map (fun x => (x, ci))) a = some ci := by
  unfold map_find
  induction l with
  | nil => cases ha
  | cons b bs ih =>
    by_cases hb : (b == a) = true
    · rw [List.map_cons, List.find?_cons_of_pos _ (by simpa using hb)]
      rfl
    · have hab : a ∈ bs := by
        rcases List.mem_cons.mp ha with h | h
        · exact absurd (by simp [h]) hb
        · exact h
      rw [List.map_cons, List.find?_cons_of_neg _ (by simpa using hb)]
      exact ih hab

theorem emit_error_unmatchd_comm (s : arger_c) (u : List String)
    (e : errors_e) (ctx : String) :
    emit_error { s with unmatchd_args := u } e ctx =
      { emit_error s e ctx with unmatchd_args := u } := by
  rw [emit_error_def, emit_error_def]

theorem help_step_unmatchd_comm (s : arger_c) (u : List String) :
    help_step { s with unmatchd_args := u } =
      { help_step s with unmatchd_args := u } := by
  rw [help_step_def, help_step_def]

theorem handle_flag_unmatchd_comm (s : arger_c) (u : List String) (ci : Nat) :
    handle_flag { s with unmatchd_args := u } ci =
      { handle_flag s ci with unmatchd_args := u } := by
  simp only [handle_flag, conditionally_mark_found, get_cell]
  split <;> rfl

theorem handle_argument_unmatchd_comm (s : arger_c) (u : List String)
    (ci : Nat) (v : String) :
    handle_argument { s with unmatchd_args := u } ci v =
      { handle_argument s ci v with unmatchd_args := u } := by
  simp only [handle_argument, conditionally_mark_found, get_cell]
  split <;> rfl

theorem scan_unmatchd_shift :
    ∀ n : Nat, ∀ l : List String, l.length ≤ n →
    ∀ s : arger_c, ∀ u : List String,
    scan { s with unmatchd_args := u ++ s.unmatchd_args } l =
      ({ (scan s l).1 with
          unmatchd_args := u ++ (scan s l).1.unmatchd_args },
        (scan s l).2) := by
  intro n
  induction n with
  | zero =>
    intro l hl s u
    rw [List.length_eq_zero.mp (Nat.le_zero.mp hl)]
    rfl
  | succ n ih =>
    intro l hl s u
    cases l with
    | nil => rfl
    | cons t rest =>
      by_cases hh : (s.auto_help_enable && (t == "-h" || t == "--help")) = true
      · rw [scan_cons_help s t rest hh,
          scan_cons_help { s with unmatchd_args := u ++ s.unmatchd_args }
            t rest hh]
        have e1 : help_step { s with unmatchd_args := u ++ s.unmatchd_args } =
            { help_step s with
                unmatchd_args := u ++ (help_step s).unmatchd_args } := by
          rw [help_step_unmatchd_comm, help_step_def]
        rw [e1]
        exact ih rest (by simp at hl; omega) (help_step s) u
      · have hhf : (s.auto_help_enable && (t == "-h" || t == "--help")) =
            false := by simpa using hh
        rcases hm : map_find s.arguments_map t with _ | ci
        · rw [scan_cons_unmatched s t rest hhf hm,
            scan_cons_unmatched { s with unmatchd_args := u ++ s.unmatchd_args }
              t rest hhf hm]
          have e1 : ({ ({ s with unmatchd_args := u ++ s.unmatchd_args } :
                arger_c) with
              unmatchd_args := (u ++ s.unmatchd_args) ++ [t] } : arger_c) =
              { ({ s with unmatchd_args := s.unmatchd_args ++ [t] } :
                  arger_c) with
                unmatchd_args := u ++ (s.unmatchd_args ++ [t]) } := by
            simp
          rw [show ({ ({ s with unmatchd_args := u ++ s.unmatchd_args } :
              arger_c) with
              unmatchd_args := ({ s with unmatchd_args :=
                u ++ s.unmatchd_args } : arger_c).unmatchd_args ++ [t] } :
              arger_c) =
              { ({ s with unmatchd_args := s.unmatchd_args ++ [t] } :
                  arger_c) with
                unmatchd_args := u ++ ({ s with unmatchd_args :=
                  s.unmatchd_args ++ [t] } : arger_c).unmatchd_args }
            from e1]
          exact ih rest (by simp at hl; omega)
            { s with unmatchd_args := s.unmatchd_args ++ [t] } u
        · by_cases hfl : (get_cell s ci).is_flag = true
          · rw [scan_cons_flag s t rest ci hhf hm hfl,
              scan_cons_flag { s with unmatchd_args := u ++ s.unmatchd_args }
                t rest ci hhf hm hfl]
            have e1 : handle_flag
                { s with unmatchd_args := u ++ s.unmatchd_args } ci =
                { handle_flag s ci with
                    unmatchd_args := u ++ (handle_flag s ci).unmatchd_args }
                := by
              rw [handle_flag_unmatchd_comm]
              have : (handle_flag s ci).unmatchd_args = s.unmatchd_args := by
                simp only [handle_flag, conditionally_mark_found, get_cell]
                split <;> rfl
              rw [this]
            rw [e1]
            exact ih rest (by simp at hl; omega) (handle_flag s ci) u
          · have hflf : (get_cell s ci).is_flag = false := by simpa using hfl
            cases rest with
            | nil =>
              rw [scan_cons_opt_nil s t ci hhf hm hflf,
                scan_cons_opt_nil
                  { s with unmatchd_args := u ++ s.unmatchd_args }
                  t ci hhf hm hflf]
              rw [emit_error_unmatchd_comm]
              have : (emit_error s .EXPECTED_VALUE t).unmatchd_args =
                  s.unmatchd_args := by rw [emit_error_def]
              rw [this]
            | cons v rest2 =>
              rw [scan_cons_opt_cons s t v rest2 ci hhf hm hflf,
                scan_cons_opt_cons
                  { s with unmatchd_args := u ++ s.unmatchd_args }
                  t v rest2 ci hhf hm hflf]
              have e1 : handle_argument
                  { s with unmatchd_args := u ++ s.unmatchd_args } ci v =
                  { handle_argument s ci v with
                      unmatchd_args :=
                        u ++ (handle_argument s ci v).unmatchd_args } := by
                rw [handle_argument_unmatchd_comm]
                have : (handle_argument s ci v).unmatchd_args =
                    s.unmatchd_args := by
                  simp only [handle_argument, conditionally_mark_found,
                    get_cell]
                  split <;> rfl
                rw [this]
              rw [e1]
              exact ih rest2 (by simp at hl; omega) (handle_argument s ci v) u

theorem getD_set_cell (l : List argument_s) (ci j : Nat) (c : argument_s) :
    (l.set ci c).getD j ({} : argument_s) =
      if ci = j ∧ ci < l.length then c else l.getD j ({} : argument_s) := by
  by_cases hij : ci = j
  · subst hij
    by_cases hlt : ci < l.length
    · simp [List.getD_eq_getElem?_getD, List.getElem?_set_self hlt, hlt]
    · have hnone : l[ci]? = none := List.getElem?_eq_none (by omega)
      simp [List.getD_eq_getElem?_getD, List.getElem?_set, hlt, hnone]
  · simp [List.getD_eq_getElem?_getD, List.getElem?_set, hij]

theorem get_cell_set_general (s : arger_c) (ci j : Nat) (c : argument_s) :
    get_cell { s with cells := s.cells.set ci c } j =
      if ci = j ∧ ci < s.cells.length then c else get_cell s j :=
  getD_set_cell s.cells ci j c

theorem handle_flag_eq (s : arger_c) (ci : Nat) :
    handle_flag s ci = handle_argument s ci "true" := rfl

theorem get_cell_handle_argument_general (s : arger_c) (ci : Nat) (v : String)
    (j : Nat) :
    get_cell (handle_argument s ci v) j =
      if ci = j ∧ ci < s.cells.length then
        { req_and_found :=
            if (get_cell s ci).req_and_found.isSome then some true
            else (get_cell s ci).req_and_found,
          value := v, is_flag := (get_cell s ci).is_flag }
      else get_cell s j := by
  simp only [handle_argument, conditionally_mark_found, get_cell]
  by_cases hlt : ci < s.cells.length
  · have hcv : ∀ c : argument_s,
        (s.cells.set ci c).getD ci ({} : argument_s) = c := by
      intro c
      simp [List.getD_eq_getElem?_getD, List.getElem?_set_self hlt]
    simp only [hcv]
    by_cases hs : (s.cells.getD ci ({} : argument_s)).req_and_found.isSome
        = true
    · simp only [hs, if_true, List.set_set, getD_set_cell]
    · have hs' : (s.cells.getD ci ({} : argument_s)).req_and_found.isSome
          = false := by simpa using hs
      simp only [hs', Bool.false_eq_true, if_false, getD_set_cell]
  · have hset : ∀ c : argument_s, s.cells.set ci c = s.cells := fun c =>
      List.set_eq_of_length_le (by omega)
    have hd : s.cells.getD ci ({} : argument_s) = ({} : argument_s) := by
      rw [List.getD_eq_getElem?_getD, List.getElem?_eq_none (by omega)]
      rfl
    simp only [hset, hd]
    simp [hlt]

theorem get_cell_congr (s₁ s₂ : arger_c) (ci : Nat)
    (h : s₁.cells = s₂.cells) : get_cell s₁ ci = get_cell s₂ ci := by
  unfold get_cell
  rw [h]

theorem handle_flag_cells_only (s : arger_c) (ci : Nat) :
    handle_flag s ci = { s with cells := (handle_flag s ci).cells } := by
  simp only [handle_flag, conditionally_mark_found, get_cell]
  split <;> rfl

theorem handle_argument_cells_only (s : arger_c) (ci : Nat) (v : String) :
    handle_argument s ci v =
      { s with cells := (handle_argument s ci v).cells } := by
  simp only [handle_argument, conditionally_mark_found, get_cell]
  split <;> rfl

theorem handle_flag_cells_congr (s₁ s₂ : arger_c) (ci : Nat)
    (h : s₁.cells = s₂.cells) :
    (handle_flag s₁ ci).cells = (handle_flag s₂ ci).cells := by
  simp only [handle_flag, conditionally_mark_found, get_cell, h]
  split <;> rfl

theorem handle_argument_cells_congr (s₁ s₂ : arger_c) (ci : Nat) (v : String)
    (h : s₁.cells = s₂.cells) :
    (handle_argument s₁ ci v).cells = (handle_argument s₂ ci v).cells := by
  simp only [handle_argument, conditionally_mark_found, get_cell, h]
  split <;> rfl

theorem cellR_refl (c : argument_s) : cellR c c := ⟨rfl, rfl, fun _ => rfl⟩

theorem flagR_refl (s : arger_c) : flagR s s :=
  ⟨rfl, rfl, rfl, rfl, rfl, rfl, rfl, rfl, fun _ => cellR_refl _⟩

theorem cell_eq_of_cellR (c₁ c₂ : argument_s) (h : cellR c₁ c₂)
    (hf : c₁.is_flag = true) : c₁ = c₂ := by
  obtain ⟨h1, h2, h3⟩ := h
  have hv := h3 hf
  cases c₁
  cases c₂
  simp_all

theorem handle_argument_cells_length (s : arger_c) (ci : Nat) (v : String) :
    (handle_argument s ci v).cells.length = s.cells.length := by
  simp only [handle_argument, conditionally_mark_found, get_cell]
  split <;> simp [List.length_set]

theorem flagR_unmatched (s₁ s₂ : arger_c) (t : String) (h : flagR s₁ s₂) :
    flagR { s₁ with unmatchd_args := s₁.unmatchd_args ++ [t] }
      { s₂ with unmatchd_args := s₂.unmatchd_args ++ [t] } := by
  obtain ⟨h1, h2, h3, h4, h5, h6, h7, h8, h9⟩ := h
  exact ⟨h1, h2, h3, by rw [h4], h5, h6, h7, h8, h9⟩

theorem flagR_help_step (s₁ s₂ : arger_c) (h : flagR s₁ s₂) :
    flagR (help_step s₁) (help_step s₂) := by
  obtain ⟨h1, h2, h3, h4, h5, h6, h7, h8, h9⟩ := h
  rw [help_step_def, help_step_def]
  exact ⟨h1, h2, h3, h4, h5, h6, by rw [h7, h1], h8, h9⟩

theorem flagR_emit_error (s₁ s₂ : arger_c) (e : errors_e) (ctx : String)
    (h : flagR s₁ s₂) : flagR (emit_error s₁ e ctx) (emit_error s₂ e ctx) := by
  obtain ⟨h1, h2, h3, h4, h5, h6, h7, h8, h9⟩ := h
  rw [emit_error_def, emit_error_def]
  exact ⟨h1, h2, h3, h4, h5, h6, by rw [h7, h2], h8, h9⟩

theorem flagR_handle_argument_gen (s₁ s₂ : arger_c) (ci : Nat)
    (v₁ v₂ : String) (h : flagR s₁ s₂)
    (hv : v₁ = v₂ ∨ (get_cell s₁ ci).is_flag = false) :
    flagR (handle_argument s₁ ci v₁) (handle_argument s₂ ci v₂) := by
  obtain ⟨h1, h2, h3, h4, h5, h6, h7, h8, h9⟩ := h
  refine ⟨?_, ?_, ?_, ?_, ?_, ?_, ?_, ?_, ?_⟩
  · rw [handle_argument_cells_only s₁ ci v₁, handle_argument_cells_only s₂]
    exact h1
  · rw [handle_argument_cells_only s₁ ci v₁, handle_argument_cells_only s₂]
    exact h2
  · rw [handle_argument_cells_only s₁ ci v₁, handle_argument_cells_only s₂]
    exact h3
  · rw [handle_argument_cells_only s₁ ci v₁, handle_argument_cells_only s₂]
    exact h4
  · rw [handle_argument_cells_only s₁ ci v₁, handle_argument_cells_only s₂]
    exact h5
  · rw [handle_argument_cells_only s₁ ci v₁, handle_argument_cells_only s₂]
    exact h6
  · rw [handle_argument_cells_only s₁ ci v₁, handle_argument_cells_only s₂]
    exact h7
  · rw [handle_argument_cells_length, handle_argument_cells_length, h8]
  · intro j
    rw [get_cell_handle_argument_general, get_cell_handle_argument_general]
    by_cases hc : ci = j ∧ ci < s₁.cells.length
    · rw [if_pos hc, if_pos (And.intro hc.1 (by rw [← h8]; exact hc.2))]
      obtain ⟨g1, g2, g3⟩ := h9 ci
      refine ⟨g1, by rw [g2], ?_⟩
      intro hf
      rcases hv with hveq | hflf
      · rw [hveq]
      · have hf' : (get_cell s₁ ci).is_flag = true := hf
        rw [hflf] at hf'
        cases hf'
    · rw [if_neg hc, if_neg ?_]
      · exact h9 j
      · intro hc₂
        exact hc ⟨hc₂.1, by rw [h8]; exact hc₂.2⟩

theorem flagR_handle_flag (s₁ s₂ : arger_c) (ci : Nat) (h : flagR s₁ s₂) :
    flagR (handle_flag s₁ ci) (handle_flag s₂ ci) := by
  rw [handle_flag_eq, handle_flag_eq]
  exact flagR_handle_argument_gen s₁ s₂ ci "true" "true" h (Or.inl rfl)

theorem scan_flagR :
    ∀ n : Nat, ∀ l : List String, l.length ≤ n → ∀ s₁ s₂ : arger_c,
    flagR s₁ s₂ →
    flagR (scan s₁ l).1 (scan s₂ l).1 ∧ (scan s₁ l).2 = (scan s₂ l).2 := by
  intro n
  induction n with
  | zero =>
    intro l hl s₁ s₂ h
    rw [List.length_eq_zero.mp (Nat.le_zero.mp hl)]
    exact ⟨h, rfl⟩
  | succ n ih =>
    intro l hl s₁ s₂ h
    have hauto := h.2.2.1
    have hmap := h.2.2.2.2.2.1
    have hcellR := h.2.2.2.2.2.2.2.2
    cases l with
    | nil => exact ⟨h, rfl⟩
    | cons t rest =>
      by_cases hh : (s₁.auto_help_enable && (t == "-h" || t == "--help"))
          = true
      · have hh₂ : (s₂.auto_help_enable && (t == "-h" || t == "--help"))
            = true := by rw [← hauto]; exact hh
        rw [scan_cons_help s₁ t rest hh, scan_cons_help s₂ t rest hh₂]
        exact ih rest (by simp at hl; omega) _ _ (flagR_help_step s₁ s₂ h)
      · have hhf : (s₁.auto_help_enable && (t == "-h" || t == "--help"))
            = false := by simpa using hh
        have hhf₂ : (s₂.auto_help_enable && (t == "-h" || t == "--help"))
            = false := by rw [← hauto]; exact hhf
        rcases hm : map_find s₁.arguments_map t with _ | ci
        · have hm₂ : map_find s₂.arguments_map t = none := by
            rw [← hmap]; exact hm
          rw [scan_cons_unmatched s₁ t rest hhf hm,
            scan_cons_unmatched s₂ t rest hhf₂ hm₂]
          exact ih rest (by simp at hl; omega) _ _ (flagR_unmatched s₁ s₂ t h)
        · have hm₂ : map_find s₂.arguments_map t = some ci := by
            rw [← hmap]; exact hm
          by_cases hfl : (get_cell s₁ ci).is_flag = true
          · have hfl₂ : (get_cell s₂ ci).is_flag = true := by
              rw [← (hcellR ci).1]; exact hfl
            rw [scan_cons_flag s₁ t rest ci hhf hm hfl,
              scan_cons_flag s₂ t rest ci hhf₂ hm₂ hfl₂]
            exact ih rest (by simp at hl; omega) _ _
              (flagR_handle_flag s₁ s₂ ci h)
          · have hflf : (get_cell s₁ ci).is_flag = false := by simpa using hfl
            have hflf₂ : (get_cell s₂ ci).is_flag = false := by
              rw [← (hcellR ci).1]; exact hflf
            cases rest with
            | nil =>
              rw [scan_cons_opt_nil s₁ t ci hhf hm hflf,
                scan_cons_opt_nil s₂ t ci hhf₂ hm₂ hflf₂]
              exact ⟨flagR_emit_error s₁ s₂ .EXPECTED_VALUE t h, rfl⟩
            | cons v rest2 =>
              rw [scan_cons_opt_cons s₁ t v rest2 ci hhf hm hflf,
                scan_cons_opt_cons s₂ t v rest2 ci hhf₂ hm₂ hflf₂]
              exact ih rest2 (by simp at hl; omega) _ _
                (flagR_handle_argument_gen s₁ s₂ ci v v h (Or.inl rfl))

theorem scan_arguments_map :
    ∀ n : Nat, ∀ l : List String, l.length ≤ n → ∀ s : arger_c,
    (scan s l).1.arguments_map = s.arguments_map := by
  intro n
  induction n with
  | zero =>
    intro l hl s
    rw [List.length_eq_zero.mp (Nat.le_zero.mp hl)]
    rfl
  | succ n ih =>
    intro l hl s
    cases l with
    | nil => rfl
    | cons t rest =>
      by_cases hh : (s.auto_help_enable && (t == "-h" || t == "--help"))
          = true
      · rw [scan_cons_help s t rest hh, ih rest (by simp at hl; omega),
          help_step_def]
      · have hhf : (s.auto_help_enable && (t == "-h" || t == "--help"))
            = false := by simpa using hh
        rcases hm : map_find s.arguments_map t with _ | ci
        · rw [scan_cons_unmatched s t rest hhf hm,
            ih rest (by simp at hl; omega)]
        · by_cases hfl : (get_cell s ci).is_flag = true
          · rw [scan_cons_flag s t rest ci hhf hm hfl,
              ih rest (by simp at hl; omega), handle_flag_cells_only]
          · have hflf : (get_cell s ci).is_flag = false := by simpa using hfl
            cases rest with
            | nil =>
              rw [scan_cons_opt_nil s t ci hhf hm hflf, emit_error_def]
            | cons v rest2 =>
              rw [scan_cons_opt_cons s t v rest2 ci hhf hm hflf,
                ih rest2 (by simp at hl; omega), handle_argument_cells_only]

theorem scan_is_flag :
    ∀ n : Nat, ∀ l : List String, l.length ≤ n → ∀ s : arger_c, ∀ j : Nat,
    (get_cell (scan s l).1 j).is_flag = (get_cell s j).is_flag := by
  intro n
  induction n with
  | zero =>
    intro l hl s j
    rw [List.length_eq_zero.mp (Nat.le_zero.mp hl)]
    rfl
  | succ n ih =>
    intro l hl s j
    cases l with
    | nil => rfl
    | cons t rest =>
      by_cases hh : (s.auto_help_enable && (t == "-h" || t == "--help"))
          = true
      · rw [scan_cons_help s t rest hh, ih rest (by simp at hl; omega)]
        rw [get_cell_congr (help_step s) s j (by rw [help_step_def])]
      · have hhf : (s.auto_help_enable && (t == "-h" || t == "--help"))
            = false := by simpa using hh
        rcases hm : map_find s.arguments_map t with _ | ci
        · rw [scan_cons_unmatched s t rest hhf hm,
            ih rest (by simp at hl; omega)]
          rfl
        · by_cases hfl : (get_cell s ci).is_flag = true
          · rw [scan_cons_flag s t rest ci hhf hm hfl,
              ih rest (by simp at hl; omega), handle_flag_eq,
              get_cell_handle_argument_general]
            by_cases hc : ci = j ∧ ci < s.cells.length
            · rw [if_pos hc]
              rw [← hc.1]
            · rw [if_neg hc]
          · have hflf : (get_cell s ci).is_flag = false := by simpa using hfl
            cases rest with
            | nil =>
              rw [scan_cons_opt_nil s t ci hhf hm hflf]
              rw [get_cell_congr (emit_error s .EXPECTED_VALUE t) s j
                (by rw [emit_error_def])]
            | cons v rest2 =>
              rw [scan_cons_opt_cons s t v rest2 ci hhf hm hflf,
                ih rest2 (by simp at hl; omega),
                get_cell_handle_argument_general]
              by_cases hc : ci = j ∧ ci < s.cells.length
              · rw [if_pos hc]
                rw [← hc.1]
              · rw [if_neg hc]

theorem required_check_cells (s : arger_c) (ds : List arg_def_s) :
    (required_check s ds).1.cells = s.cells := by
  induction ds with
  | nil => rfl
  | cons d ds ih =>
    by_cases hc : (get_cell s d.allocated_arg).req_and_found = some false
    · rw [required_check, if_pos hc, emit_error_def]
    · rw [required_check, if_neg hc]
      exact ih

theorem required_check_map (s : arger_c) (ds : List arg_def_s) :
    (required_check s ds).1.arguments_map = s.arguments_map := by
  induction ds with
  | nil => rfl
  | cons d ds ih =>
    by_cases hc : (get_cell s d.allocated_arg).req_and_found = some false
    · rw [required_check, if_pos hc, emit_error_def]
    · rw [required_check, if_neg hc]
      exact ih

theorem handle_argument_is_flag (s : arger_c) (ci : Nat) (v : String)
    (j : Nat) :
    (get_cell (handle_argument s ci v) j).is_flag =
      (get_cell s j).is_flag := by
  rw [get_cell_handle_argument_general]
  by_cases hc : ci = j ∧ ci < s.cells.length
  · rw [if_pos hc]
    show (get_cell s ci).is_flag = (get_cell s j).is_flag
    rw [hc.1]
  · rw [if_neg hc]

theorem get_arg_shared_cell (t : arger_c) (ci : Nat)
    (h1 : map_find t.arguments_map "-b" = some ci)
    (h2 : map_find t.arguments_map "--bool" = some ci) :
    get_arg_string t "-b" = get_arg_string t "--bool" ∧
      get_arg_bool t "-b" = get_arg_bool t "--bool" := by
  unfold get_arg_string get_arg_bool
  rw [h1, h2]
  exact ⟨rfl, rfl⟩

theorem C8_substitution_base (s₁ s₂ : arger_c) (post : List String) (ci : Nat)
    (h : flagR s₁ s₂) (hb : map_find s₁.arguments_map "-b" = some ci)
    (hbb : map_find s₁.arguments_map "--bool" = some ci)
    (hfl : (get_cell s₁ ci).is_flag = true) :
    flagR (scan s₁ ("-b" :: post)).1 (scan s₂ ("--bool" :: post)).1 ∧
      (scan s₁ ("-b" :: post)).2 = (scan s₂ ("--bool" :: post)).2 := by
  have hmap := h.2.2.2.2.2.1
  have hcellR := h.2.2.2.2.2.2.2.2
  have hh₁ : (s₁.auto_help_enable &&
      (("-b" : String) == "-h" || ("-b" : String) == "--help")) = false := by
    rw [show ((("-b" : String) == "-h") || (("-b" : String) == "--help"))
      = false from by decide, Bool.and_false]
  have hh₂ : (s₂.auto_help_enable &&
      (("--bool" : String) == "-h" || ("--bool" : String) == "--help"))
      = false := by
    rw [show ((("--bool" : String) == "-h") ||
      (("--bool" : String) == "--help")) = false from by decide,
      Bool.and_false]
  have hb₂ : map_find s₂.arguments_map "--bool" = some ci := by
    rw [← hmap]; exact hbb
  have hfl₂ : (get_cell s₂ ci).is_flag = true := by
    rw [← (hcellR ci).1]; exact hfl
  rw [scan_cons_flag s₁ "-b" post ci hh₁ hb hfl,
    scan_cons_flag s₂ "--bool" post ci hh₂ hb₂ hfl₂]
  exact scan_flagR post.length post le_rfl _ _ (flagR_handle_flag s₁ s₂ ci h)

theorem C8_substitution :
    ∀ n : Nat, ∀ pre : List String, pre.length ≤ n →
    ∀ s₁ s₂ : arger_c, ∀ post : List String, ∀ ci : Nat,
    flagR s₁ s₂ →
    map_find s₁.arguments_map "-b" = some ci →
    map_find s₁.arguments_map "--bool" = some ci →
    (get_cell s₁ ci).is_flag = true →
    flagR (scan s₁ (pre ++ "-b" :: post)).1
        (scan s₂ (pre ++ "--bool" :: post)).1 ∧
      (scan s₁ (pre ++ "-b" :: post)).2 =
        (scan s₂ (pre ++ "--bool" :: post)).2 := by
  intro n
  induction n with
  | zero =>
    intro pre hl s₁ s₂ post ci h hb hbb hfl
    rw [List.length_eq_zero.mp (Nat.le_zero.mp hl)]
    exact C8_substitution_base s₁ s₂ post ci h hb hbb hfl
  | succ n ih =>
    intro pre hl s₁ s₂ post ci h hb hbb hfl
    have hauto := h.2.2.1
    have hmap := h.2.2.2.2.2.1
    have hcellR := h.2.2.2.2.2.2.2.2
    cases pre with
    | nil => exact C8_substitution_base s₁ s₂ post ci h hb hbb hfl
    | cons p pre' =>
      rw [List.cons_append, List.cons_append]
      by_cases hh : (s₁.auto_help_enable && (p == "-h" || p == "--help"))
          = true
      · have hh₂ : (s₂.auto_help_enable && (p == "-h" || p == "--help"))
            = true := by rw [← hauto]; exact hh
        rw [scan_cons_help s₁ p _ hh, scan_cons_help s₂ p _ hh₂]
        refine ih pre' (by simp at hl; omega) _ _ post ci
          (flagR_help_step s₁ s₂ h) ?_ ?_ ?_
        · rw [help_step_def]; exact hb
        · rw [help_step_def]; exact hbb
        · rw [help_step_def]; exact hfl
      · have hhf : (s₁.auto_help_enable && (p == "-h" || p == "--help"))
            = false := by simpa using hh
        have hhf₂ : (s₂.auto_help_enable && (p == "-h" || p == "--help"))
            = false := by rw [← hauto]; exact hhf
        rcases hm : map_find s₁.arguments_map p with _ | cj
        · have hm₂ : map_find s₂.arguments_map p = none := by
            rw [← hmap]; exact hm
          rw [scan_cons_unmatched s₁ p _ hhf hm,
            scan_cons_unmatched s₂ p _ hhf₂ hm₂]
          exact ih pre' (by simp at hl; omega) _ _ post ci
            (flagR_unmatched s₁ s₂ p h) hb hbb hfl
        · have hm₂ : map_find s₂.arguments_map p = some cj := by
            rw [← hmap]; exact hm
          by_cases hflp : (get_cell s₁ cj).is_flag = true
          · have hflp₂ : (get_cell s₂ cj).is_flag = true := by
              rw [← (hcellR cj).1]; exact hflp
            rw [scan_cons_flag s₁ p _ cj hhf hm hflp,
              scan_cons_flag s₂ p _ cj hhf₂ hm₂ hflp₂]
            refine ih pre' (by simp at hl; omega) _ _ post ci
              (flagR_handle_flag s₁ s₂ cj h) ?_ ?_ ?_
            · rw [handle_flag_cells_only]; exact hb
            · rw [handle_flag_cells_only]; exact hbb
            · rw [handle_flag_eq, handle_argument_is_flag]; exact hfl
          · have hflpf : (get_cell s₁ cj).is_flag = false := by
              simpa using hflp
            have hflpf₂ : (get_cell s₂ cj).is_flag = false := by
              rw [← (hcellR cj).1]; exact hflpf
            cases pre' with
            | nil =>
              rw [List.nil_append, List.nil_append]
              rw [scan_cons_opt_cons s₁ p "-b" post cj hhf hm hflpf,
                scan_cons_opt_cons s₂ p "--bool" post cj hhf₂ hm₂ hflpf₂]
              exact scan_flagR post.length post le_rfl _ _
                (flagR_handle_argument_gen s₁ s₂ cj "-b" "--bool" h
                  (Or.inr hflpf))
            | cons q pre'' =>
              rw [List.cons_append, List.cons_append]
              rw [scan_cons_opt_cons s₁ p q _ cj hhf hm hflpf,
                scan_cons_opt_cons s₂ p q _ cj hhf₂ hm₂ hflpf₂]
              refine ih pre'' (by simp at hl; omega) _ _ post ci
                (flagR_handle_argument_gen s₁ s₂ cj q q h (Or.inl rfl))
                ?_ ?_ ?_
              · rw [handle_argument_cells_only]; exact hb
              · rw [handle_argument_cells_only]; exact hbb
              · rw [handle_argument_is_flag]; exact hfl

theorem required_check_flagR :
    ∀ ds : List arg_def_s, ∀ s₁ s₂ : arger_c, flagR s₁ s₂ →
    flagR (required_check s₁ ds).1 (required_check s₂ ds).1 ∧
      (required_check s₁ ds).2 = (required_check s₂ ds).2 := by
  intro ds
  induction ds with
  | nil => exact fun s₁ s₂ h => ⟨h, rfl⟩
  | cons d ds ih =>
    intro s₁ s₂ h
    have hreq : (get_cell s₁ d.allocated_arg).req_and_found =
        (get_cell s₂ d.allocated_arg).req_and_found :=
      (h.2.2.2.2.2.2.2.2 d.allocated_arg).2.1
    by_cases hc : (get_cell s₁ d.allocated_arg).req_and_found = some false
    · have hc₂ : (get_cell s₂ d.allocated_arg).req_and_found = some false :=
        by rw [← hreq]; exact hc
      rw [required_check, if_pos hc, required_check, if_pos hc₂]
      exact ⟨flagR_emit_error s₁ s₂ .MISSING_REQUIRED_ARGUMENT
        (concat_aliases d.args) h, rfl⟩
    · have hc₂ : ¬ (get_cell s₂ d.allocated_arg).req_and_found = some false :=
        by rw [← hreq]; exact hc
      rw [required_check, if_neg hc, required_check, if_neg hc₂]
      exact ih s₁ s₂ h

theorem scan_eqv_except_error_cb :
    ∀ n : Nat, ∀ l : List String, l.length ≤ n → ∀ s₁ s₂ : arger_c,
    eqv_except_error_cb s₁ s₂ →
    eqv_except_error_cb (scan s₁ l).1 (scan s₂ l).1 ∧
      (scan s₁ l).2 = (scan s₂ l).2 := by
  intro n
  induction n with
  | zero =>
    intro l hl s₁ s₂ h
    rw [List.length_eq_zero.mp (Nat.le_zero.mp hl)]
    exact ⟨h, rfl⟩
  | succ n ih =>
    intro l hl s₁ s₂ h
    obtain ⟨hpost, hauto, hun, hdefs, hcells, hmap, hprog⟩ := h
    cases l with
    | nil => exact ⟨⟨hpost, hauto, hun, hdefs, hcells, hmap, hprog⟩, rfl⟩
    | cons t rest =>
      by_cases hh : (s₁.auto_help_enable && (t == "-h" || t == "--help"))
          = true
      · have hh₂ : (s₂.auto_help_enable && (t == "-h" || t == "--help"))
            = true := by rw [← hauto]; exact hh
        rw [scan_cons_help s₁ t rest hh, scan_cons_help s₂ t rest hh₂]
        apply ih rest (by simp at hl; omega)
        rw [help_step_def, help_step_def]
        exact ⟨hpost, by exact hauto, by exact hun, by exact hdefs,
          by exact hcells, by exact hmap, by exact hprog⟩
      · have hhf : (s₁.auto_help_enable && (t == "-h" || t == "--help"))
            = false := by simpa using hh
        have hhf₂ : (s₂.auto_help_enable && (t == "-h" || t == "--help"))
            = false := by rw [← hauto]; exact hhf
        rcases hm : map_find s₁.arguments_map t with _ | ci
        · have hm₂ : map_find s₂.arguments_map t = none := by
            rw [← hmap]; exact hm
          rw [scan_cons_unmatched s₁ t rest hhf hm,
            scan_cons_unmatched s₂ t rest hhf₂ hm₂]
          apply ih rest (by simp at hl; omega)
          exact ⟨hpost, hauto, by rw [hun], hdefs, hcells, hmap, hprog⟩
        · have hm₂ : map_find s₂.arguments_map t = some ci := by
            rw [← hmap]; exact hm
          have hgc : get_cell s₁ ci = get_cell s₂ ci :=
            get_cell_congr s₁ s₂ ci hcells
          by_cases hfl : (get_cell s₁ ci).is_flag = true
          · have hfl₂ : (get_cell s₂ ci).is_flag = true := by
              rw [← hgc]; exact hfl
            rw [scan_cons_flag s₁ t rest ci hhf hm hfl,
              scan_cons_flag s₂ t rest ci hhf₂ hm₂ hfl₂]
            apply ih rest (by simp at hl; omega)
            rw [handle_flag_cells_only s₁, handle_flag_cells_only s₂]
            exact ⟨hpost, hauto, hun, hdefs,
              handle_flag_cells_congr s₁ s₂ ci hcells, hmap, hprog⟩
          · have hflf : (get_cell s₁ ci).is_flag = false := by simpa using hfl
            have hflf₂ : (get_cell s₂ ci).is_flag = false := by
              rw [← hgc]; exact hflf
            cases rest with
            | nil =>
              rw [scan_cons_opt_nil s₁ t ci hhf hm hflf,
                scan_cons_opt_nil s₂ t ci hhf₂ hm₂ hflf₂]
              rw [emit_error_def, emit_error_def]
              exact ⟨⟨hpost, hauto, hun, hdefs, hcells, hmap, hprog⟩, rfl⟩
            | cons v rest2 =>
              rw [scan_cons_opt_cons s₁ t v rest2 ci hhf hm hflf,
                scan_cons_opt_cons s₂ t v rest2 ci hhf₂ hm₂ hflf₂]
              apply ih rest2 (by simp at hl; omega)
              rw [handle_argument_cells_only s₁,
                handle_argument_cells_only s₂]
              exact ⟨hpost, hauto, hun, hdefs,
                handle_argument_cells_congr s₁ s₂ ci v hcells, hmap, hprog⟩

theorem required_check_eqv_except_error_cb :
    ∀ ds : List arg_def_s, ∀ s₁ s₂ : arger_c, eqv_except_error_cb s₁ s₂ →
    eqv_except_error_cb (required_check s₁ ds).1 (required_check s₂ ds).1 ∧
      (required_check s₁ ds).2 = (required_check s₂ ds).2 := by
  intro ds
  induction ds with
  | nil => exact fun s₁ s₂ h => ⟨h, rfl⟩
  | cons d ds ih =>
    intro s₁ s₂ h
    have hgc : get_cell s₁ d.allocated_arg = get_cell s₂ d.allocated_arg :=
      get_cell_congr s₁ s₂ d.allocated_arg h.2.2.2.2.1
    by_cases hc : (get_cell s₁ d.allocated_arg).req_and_found = some false
    · have hc₂ : (get_cell s₂ d.allocated_arg).req_and_found = some false :=
        by rw [← hgc]; exact hc
      rw [required_check, if_pos hc, required_check, if_pos hc₂,
        emit_error_def, emit_error_def]
      exact ⟨⟨h.1, h.2.1, h.2.2.1, h.2.2.2.1, h.2.2.2.2.1, h.2.2.2.2.2.1,
        h.2.2.2.2.2.2⟩, rfl⟩
    · have hc₂ : ¬ (get_cell s₂ d.allocated_arg).req_and_found = some false :=
        by rw [← hgc]; exact hc
      rw [required_check, if_neg hc, required_check, if_neg hc₂]
      exact ih s₁ s₂ h

theorem required_check_unmatchd (s : arger_c) (ds : List arg_def_s) :
    (required_check s ds).1.unmatchd_args = s.unmatchd_args := by
  induction ds with
  | nil => rfl
  | cons d ds ih =>
    by_cases hc : (get_cell s d.allocated_arg).req_and_found = some false
    · rw [required_check, if_pos hc, emit_error_def]
    · rw [required_check, if_neg hc]
      exact ih

/-! ### Claims -/

/-- C1, counterexample: with one value-bearing option `--name` registered,
parsing `["prog", "--name", "y", "extra"]` does NOT yield the unmatched list
`["extra"]`: the loop starts at index 0, so the program-name token `"prog"` is
looked up, matches nothing, and is appended to the unmatched list. -/
theorem C1_counterexample :
    get_unmatched_args (parse sC1 ["prog", "--name", "y", "extra"]).1 ≠
      ["extra"] ∧
    "prog" ∈ get_unmatched_args (parse sC1 ["prog", "--name", "y", "extra"]).1
    := by decide

/-- C1, amended: for a value-bearing option registered under alias `--name`
(no other definitions), parsing `["prog", "--name", "y", "extra"]` returns
success, `get<string>("--name")` returns `"y"`, and `get_unmatched_args()`
returns `["prog", "extra"]`: the value token `"y"` is never looked up in the
alias index (it is consumed as the option's value), but the program-name token
`"prog"` IS appended to the unmatched list. -/
theorem C1_theorem :
    (parse sC1 ["prog", "--name", "y", "extra"]).2 = true ∧
    get_arg_string (parse sC1 ["prog", "--name", "y", "extra"]).1 "--name" =
      some "y" ∧
    get_unmatched_args (parse sC1 ["prog", "--name", "y", "extra"]).1 =
      ["prog", "extra"] := by decide

/-- C2, code-bug evaluation: for a flag `-b` with default `false`, a token
list without the alias retrieves `false` (as the claim states), and parsing
`["prog", "-b"]` consumes exactly the one token and succeeds; but the stored
text becomes `"true"`, which `get_arg<bool>`'s stream extraction (no
`boolalpha`: read a decimal long, failed extraction stores 0) turns back into
`false` — the claim says `true`. -/
theorem C2_theorem :
    get_arg_bool (parse sC2 ["prog"]).1 "-b" = some false ∧
    (parse sC2 ["prog", "-b"]).2 = true ∧
    (parse sC2 ["prog", "-b"]).1.unmatchd_args = ["prog"] ∧
    (get_cell (parse sC2 ["prog", "-b"]).1 0).value = "true" ∧
    get_arg_bool (parse sC2 ["prog", "-b"]).1 "-b" = some false := by decide

/-- C3, counterexample: with auto-help on and a post-help callback registered,
parsing `["prog", "-h"]` invokes the post-help callback twice for the single
help token (once inside `print_help`, once in the `parse` loop), not exactly
once as the claim states. -/
theorem C3_counterexample :
    (parse sC3 ["prog", "-h"]).1.events.count event_e.post_help_called = 2 ∧
    ¬ (parse sC3 ["prog", "-h"]).1.events.count event_e.post_help_called = 1
    := by decide

/-- C3, amended: for every token equal to `-h` or `--help` while automatic
help is enabled, the help text is rendered, the post-help callback (if
registered) is invoked exactly TWICE for that token — once inside the help
rendering and once by the parse loop — and scanning then continues with the
next token instead of aborting; the help step touches no other parser state
(cells and the unmatched list are unchanged). -/
theorem C3_theorem (s : arger_c) (t : String) (rest : List String)
    (hauto : s.auto_help_enable = true) (ht : t = "-h" ∨ t = "--help") :
    scan s (t :: rest) = scan (help_step s) rest ∧
    (help_step s).events = s.events ++ [.help_printed] ++
      (if s.has_post_help_cb then [.post_help_called, .post_help_called]
       else []) ∧
    (help_step s).cells = s.cells ∧
    (help_step s).unmatchd_args = s.unmatchd_args := by
  refine ⟨?_, ?_, ?_, ?_⟩
  · have hh : (s.auto_help_enable && (t == "-h" || t == "--help")) = true := by
      rcases ht with h | h <;> simp [h, hauto]
    exact scan_cons_help s t rest hh
  all_goals
    unfold help_step print_help
    cases hp : s.has_post_help_cb <;> simp [hp]

/-- Witness for C3: the amended claim at the concrete state `sC3` and the
token list `["-h"]`. -/
theorem C3_witness :
    scan sC3 ["-h"] = scan (help_step sC3) [] ∧
    (help_step sC3).events = [] ++ [.help_printed] ++
      (if sC3.has_post_help_cb then [.post_help_called, .post_help_called]
       else []) :=
  ⟨(C3_theorem sC3 "-h" [] rfl (Or.inl rfl)).1,
    (C3_theorem sC3 "-h" [] rfl (Or.inl rfl)).2.1⟩

/-- C4: after a token scan that completed without a value-consumption failure,
`parse` runs the required check over all definitions in registration order;
`required_check` fails exactly at the FIRST definition whose
`req_and_found` is `some false`, emitting one `MISSING_REQUIRED_ARGUMENT`
with the concatenated alias list through the error callback (if registered)
and reporting no further definitions; if no such definition exists it returns
success. -/
theorem C4_theorem (s : arger_c) (args : List String) (s₁ : arger_c)
    (h : scan { s with program_name := args.headD s.program_name } args =
      (s₁, true)) :
    parse s args = required_check s₁ s₁.argument_defs ∧
    ∀ s' : arger_c, ∀ defs : List arg_def_s,
      required_check s' defs =
        match defs.find?
            (fun d => decide
              ((get_cell s' d.allocated_arg).req_and_found = some false)) with
        | some d =>
          (emit_error s' .MISSING_REQUIRED_ARGUMENT (concat_aliases d.args),
            false)
        | none => (s', true) :=
  ⟨parse_of_scan_true s args s₁ h, fun s' defs => required_check_find? s' defs⟩

/-- Witness for C4: the required flag `{-b, --bool}` of `sC4` is absent from
`["prog"]`; the scan succeeds and `parse` hands over to `required_check`,
which fails on that first (and only) definition. -/
theorem C4_witness :
    parse sC4 ["prog"] =
      required_check (scan { sC4 with program_name := "prog" } ["prog"]).1
        (scan { sC4 with program_name := "prog" } ["prog"]).1.argument_defs :=
  (C4_theorem sC4 ["prog"]
    (scan { sC4 with program_name := "prog" } ["prog"]).1 (by decide)).1

/-- C6: if a token matches the alias of a value-bearing option and no
following token exists, the scan emits `EXPECTED_VALUE` with that option
token through the error callback (if registered) and stops with failure; a
failed scan makes `parse` return that failure immediately (the post-scan
required check is never reached); otherwise the following token is stored
verbatim as the option's value and the cursor advances past it. -/
theorem C6_theorem :
    (∀ s : arger_c, ∀ t : String, ∀ ci : Nat,
      (s.auto_help_enable && (t == "-h" || t == "--help")) = false →
      map_find s.arguments_map t = some ci →
      (get_cell s ci).is_flag = false →
      scan s [t] = (emit_error s .EXPECTED_VALUE t, false)) ∧
    (∀ s : arger_c, ∀ args : List String, ∀ s₁ : arger_c,
      scan { s with program_name := args.headD s.program_name } args =
        (s₁, false) →
      parse s args = (s₁, false)) ∧
    (∀ s : arger_c, ∀ t v : String, ∀ rest2 : List String, ∀ ci : Nat,
      (s.auto_help_enable && (t == "-h" || t == "--help")) = false →
      map_find s.arguments_map t = some ci →
      (get_cell s ci).is_flag = false →
      scan s (t :: v :: rest2) = scan (handle_argument s ci v) rest2) ∧
    (∀ s : arger_c, ∀ ci : Nat, ∀ v : String, ci < s.cells.length →
      (get_cell (handle_argument s ci v) ci).value = v) :=
  ⟨fun s t ci hh hm hfl => scan_cons_opt_nil s t ci hh hm hfl,
   fun s args s₁ h => parse_of_scan_false s args s₁ h,
   fun s t v rest2 ci hh hm hfl => scan_cons_opt_cons s t v rest2 ci hh hm hfl,
   fun s ci v hci => handle_argument_value s ci v hci⟩

/-- Witness for C6: the option `-n` of `sC6` as last token fails with
`EXPECTED_VALUE` and aborts `parse`; with a following token `"y"` the value is
consumed and stored. -/
theorem C6_witness :
    scan sC6 ["-n"] = (emit_error sC6 .EXPECTED_VALUE "-n", false) ∧
    parse sC6 ["prog", "x", "-n"] =
      ((scan { sC6 with program_name := "prog" } ["prog", "x", "-n"]).1,
        false) ∧
    scan sC6 ["-n", "y"] = scan (handle_argument sC6 0 "y") [] ∧
    (get_cell (handle_argument sC6 0 "y") 0).value = "y" :=
  ⟨C6_theorem.1 sC6 "-n" 0 (by decide) (by decide) (by decide),
   C6_theorem.2.1 sC6 ["prog", "x", "-n"]
     (scan { sC6 with program_name := "prog" } ["prog", "x", "-n"]).1
     (by decide),
   C6_theorem.2.2.1 sC6 "-n" "y" [] 0 (by decide) (by decide) (by decide),
   C6_theorem.2.2.2 sC6 0 "y" (by decide)⟩

/-- C5: registration is atomic with respect to duplicates. If any alias of the
set already exists in the alias index, `add_arg` returns failure, invokes the
error callback (if registered) exactly once with `DUPLICATE_DEFINITION` and an
offending alias, and leaves the index, the cell arena and the definition
registry unchanged (so no alias of the new definition becomes matchable);
otherwise it succeeds and indexes every alias of the set to the one freshly
allocated cell. -/
theorem C5_theorem (s : arger_c) (arg : List String) (desc : String)
    (dv : arg_t) (req fl : Bool) :
    (arg.any (fun a => (map_find s.arguments_map a).isSome) = true →
      (add_arg s arg desc dv req fl).2 = false ∧
      (add_arg s arg desc dv req fl).1.arguments_map = s.arguments_map ∧
      (add_arg s arg desc dv req fl).1.cells = s.cells ∧
      (add_arg s arg desc dv req fl).1.argument_defs = s.argument_defs ∧
      ∃ a, a ∈ arg ∧ (map_find s.arguments_map a).isSome = true ∧
        (add_arg s arg desc dv req fl).1.events = s.events ++
          (if s.has_error_cb then [.error_called .DUPLICATE_DEFINITION a]
           else [])) ∧
    (arg.any (fun a => (map_find s.arguments_map a).isSome) = false →
      (add_arg s arg desc dv req fl).2 = true ∧
      (∀ a ∈ arg, map_find (add_arg s arg desc dv req fl).1.arguments_map a =
        some s.cells.length) ∧
      (add_arg s arg desc dv req fl).1.cells = s.cells ++
        [{ req_and_found := if req then some false else none,
           value := arg_to_string dv, is_flag := fl }]) := by
  constructor
  · intro hany
    obtain ⟨a, ha⟩ := Option.isSome_iff_exists.mp
      (List.find?_isSome.mpr (List.any_eq_true.mp hany))
    have key : add_arg s arg desc dv req fl =
        (emit_error s .DUPLICATE_DEFINITION a, false) := by
      unfold add_arg
      rw [ha]
    rw [key, emit_error_def]
    exact ⟨rfl, rfl, rfl, rfl, a, List.mem_of_find?_eq_some ha,
      by simpa using List.find?_some ha, rfl⟩
  · intro hany
    rw [List.any_eq_false] at hany
    have hfind :
        arg.find? (fun a => (map_find s.arguments_map a).isSome) = none := by
      rw [List.find?_eq_none]
      exact hany
    refine ⟨?_, ?_, ?_⟩
    · simp only [add_arg, hfind]
    · intro a ha
      simp only [add_arg, hfind]
      rw [map_find_append_of_none]
      · exact map_find_map_const arg s.cells.length a ha
      · have h1 : ¬ (map_find s.arguments_map a).isSome = true := by
          simpa using hany a ha
        simpa using h1
    · simp only [add_arg, hfind]

/-- Witness for C5: registering `{--bool, -x}` after `sC4` already indexed
`--bool` fails and leaves the alias index unchanged. -/
theorem C5_witness :
    (add_arg sC4 ["--bool", "-x"] "d" (.str "") false false).2 = false ∧
    (add_arg sC4 ["--bool", "-x"] "d" (.str "") false false).1.arguments_map =
      sC4.arguments_map :=
  ⟨((C5_theorem sC4 ["--bool", "-x"] "d" (.str "") false false).1
      (by decide)).1,
   ((C5_theorem sC4 ["--bool", "-x"] "d" (.str "") false false).1
      (by decide)).2.1⟩

/-- C7, counterexample: `unmatchd_args_` is never cleared between `parse`
calls, so after `parse ["p", "a"]` followed by `parse ["p", "b"]` the result of
`get_unmatched_args()` is `["p", "a", "p", "b"]` — it still contains the token
`"a"` of the first call and is not the second call's unmatched list. -/
theorem C7_counterexample :
    get_unmatched_args
      (parse (parse (arger_init false) ["p", "a"]).1 ["p", "b"]).1 =
      ["p", "a", "p", "b"] ∧
    "a" ∈ get_unmatched_args
      (parse (parse (arger_init false) ["p", "a"]).1 ["p", "b"]).1 ∧
    get_unmatched_args
      (parse (parse (arger_init false) ["p", "b"]).1 ["p", "b"]).1 ≠
      ["p", "b"] := by decide

/-- C7, amended: `get_unmatched_args()` accumulates across `parse` calls: for
every parser state and token list, the unmatched list after `parse` is the
unmatched list already present before the call followed by the tokens this
call itself leaves unmatched (what the same call would produce from an empty
unmatched list), in input order. In particular a second `parse` call appends
to — rather than replaces — the first call's unmatched tokens. -/
theorem C7_theorem (s : arger_c) (args : List String) :
    get_unmatched_args (parse s args).1 =
      get_unmatched_args s ++
        get_unmatched_args (parse { s with unmatchd_args := [] } args).1 := by
  have hshift := scan_unmatchd_shift args.length args le_rfl
    ({ s with
        unmatchd_args := [],
        program_name := args.headD s.program_name }) s.unmatchd_args
  rcases hb : scan ({ s with
      unmatchd_args := [],
      program_name := args.headD s.program_name } : arger_c) args with ⟨s₂, b⟩
  rw [hb] at hshift
  have hA : scan ({ s with
        program_name := args.headD s.program_name } : arger_c) args =
      ({ s₂ with unmatchd_args := s.unmatchd_args ++ s₂.unmatchd_args }, b)
      := by
    have e : ({ s with program_name := args.headD s.program_name } :
        arger_c) =
        { ({ s with
              unmatchd_args := [],
              program_name := args.headD s.program_name } : arger_c) with
          unmatchd_args := s.unmatchd_args ++
            ({ s with
                unmatchd_args := [],
                program_name := args.headD s.program_name } :
              arger_c).unmatchd_args } := by
      simp
    rw [e, hshift]
  cases b with
  | false =>
    have p1 := parse_of_scan_false s args _ hA
    have p2 := parse_of_scan_false { s with unmatchd_args := [] } args s₂ hb
    rw [get_unmatched_args, get_unmatched_args, get_unmatched_args, p1, p2]
  | true =>
    have p1 := parse_of_scan_true s args _ hA
    have p2 := parse_of_scan_true { s with unmatchd_args := [] } args s₂ hb
    rw [get_unmatched_args, get_unmatched_args, get_unmatched_args, p1, p2,
      required_check_unmatchd, required_check_unmatchd]

/-- C8, counterexample: for a VALUE-BEARING definition registered with
aliases `{-b, --bool}`, an occurrence of `--bool` that is consumed as the
preceding option token's VALUE breaks interchangeability: parsing
`["prog", "-b", "--bool"]` stores `"--bool"` while the same input with `-b`
in its place stores `"-b"`, so the stored values differ. -/
theorem C8_counterexample :
    get_arg_string (parse sC8opt ["prog", "-b", "--bool"]).1 "-b" =
      some "--bool" ∧
    get_arg_string (parse sC8opt ["prog", "-b", "-b"]).1 "-b" = some "-b" ∧
    get_arg_string (parse sC8opt ["prog", "-b", "--bool"]).1 "-b" ≠
      get_arg_string (parse sC8opt ["prog", "-b", "-b"]).1 "-b" := by decide

/-- C8, amended: all aliases of one FLAG definition are interchangeable and
share one value cell. If `-b` and `--bool` are both indexed to the same cell
`ci` and that cell is a flag, then parsing any input with `--bool` at some
position gives exactly the same cell state for that definition and the same
parse result as parsing the same input with `-b` in its place; and after
either parse, `get` through `-b` and `get` through `--bool` read the same
shared cell and return the same value. (For a value-bearing option the
substituted token can instead be captured verbatim as a preceding option's
value, where the two inputs legitimately store different text — the
counterexample.) -/
theorem C8_theorem (s : arger_c) (ci : Nat) (pre post : List String)
    (hb : map_find s.arguments_map "-b" = some ci)
    (hbb : map_find s.arguments_map "--bool" = some ci)
    (hfl : (get_cell s ci).is_flag = true) :
    get_cell (parse s (pre ++ "-b" :: post)).1 ci =
      get_cell (parse s (pre ++ "--bool" :: post)).1 ci ∧
    (parse s (pre ++ "-b" :: post)).2 =
      (parse s (pre ++ "--bool" :: post)).2 ∧
    get_arg_string (parse s (pre ++ "-b" :: post)).1 "-b" =
      get_arg_string (parse s (pre ++ "-b" :: post)).1 "--bool" ∧
    get_arg_string (parse s (pre ++ "--bool" :: post)).1 "-b" =
      get_arg_string (parse s (pre ++ "--bool" :: post)).1 "--bool" ∧
    get_arg_bool (parse s (pre ++ "-b" :: post)).1 "-b" =
      get_arg_bool (parse s (pre ++ "-b" :: post)).1 "--bool" ∧
    get_arg_bool (parse s (pre ++ "--bool" :: post)).1 "-b" =
      get_arg_bool (parse s (pre ++ "--bool" :: post)).1 "--bool" := by
  have h0 : flagR
      ({ s with program_name := (pre ++ "-b" :: post).headD s.program_name })
      ({ s with
        program_name := (pre ++ "--bool" :: post).headD s.program_name }) :=
    ⟨rfl, rfl, rfl, rfl, rfl, rfl, rfl, rfl, fun _ => cellR_refl _⟩
  have hmain := C8_substitution pre.length pre le_rfl
    ({ s with program_name := (pre ++ "-b" :: post).headD s.program_name })
    ({ s with program_name := (pre ++ "--bool" :: post).headD s.program_name })
    post ci h0 hb hbb hfl
  have hmap₁ := scan_arguments_map (pre ++ "-b" :: post).length
    (pre ++ "-b" :: post) le_rfl
    ({ s with program_name := (pre ++ "-b" :: post).headD s.program_name })
  have hmap₂ := scan_arguments_map (pre ++ "--bool" :: post).length
    (pre ++ "--bool" :: post) le_rfl
    ({ s with program_name := (pre ++ "--bool" :: post).headD s.program_name })
  have hfl₁ := scan_is_flag (pre ++ "-b" :: post).length
    (pre ++ "-b" :: post) le_rfl
    ({ s with program_name := (pre ++ "-b" :: post).headD s.program_name }) ci
  rcases hs₁ : scan
      ({ s with program_name := (pre ++ "-b" :: post).headD s.program_name })
      (pre ++ "-b" :: post) with ⟨t₁, b₁⟩
  rcases hs₂ : scan
      ({ s with
        program_name := (pre ++ "--bool" :: post).headD s.program_name })
      (pre ++ "--bool" :: post) with ⟨t₂, b₂⟩
  rw [hs₁, hs₂] at hmain
  rw [hs₁] at hmap₁ hfl₁
  rw [hs₂] at hmap₂
  obtain ⟨hR, hbeq⟩ := hmain
  have hcell₁ : map_find t₁.arguments_map "-b" = some ci := by
    rw [hmap₁]; exact hb
  have hcell₁b : map_find t₁.arguments_map "--bool" = some ci := by
    rw [hmap₁]; exact hbb
  have hcell₂ : map_find t₂.arguments_map "-b" = some ci := by
    rw [hmap₂]; exact hb
  have hcell₂b : map_find t₂.arguments_map "--bool" = some ci := by
    rw [hmap₂]; exact hbb
  have hflt₁ : (get_cell t₁ ci).is_flag = true := by rw [hfl₁]; exact hfl
  cases b₂ with
  | false =>
    have hb₁ : b₁ = false := by simpa using hbeq
    rw [hb₁] at hs₁
    rw [parse_of_scan_false s (pre ++ "-b" :: post) t₁ hs₁,
      parse_of_scan_false s (pre ++ "--bool" :: post) t₂ hs₂]
    refine ⟨cell_eq_of_cellR _ _ (hR.2.2.2.2.2.2.2.2 ci) hflt₁, rfl, ?_⟩
    obtain ⟨g1, g2⟩ := get_arg_shared_cell t₁ ci hcell₁ hcell₁b
    obtain ⟨g3, g4⟩ := get_arg_shared_cell t₂ ci hcell₂ hcell₂b
    exact ⟨g1, g3, g2, g4⟩
  | true =>
    have hb₁ : b₁ = true := by simpa using hbeq
    rw [hb₁] at hs₁
    rw [parse_of_scan_true s (pre ++ "-b" :: post) t₁ hs₁,
      parse_of_scan_true s (pre ++ "--bool" :: post) t₂ hs₂]
    have hdefs : t₁.argument_defs = t₂.argument_defs := hR.2.2.2.2.1
    rw [hdefs]
    have hrc := required_check_flagR t₂.argument_defs t₁ t₂ hR
    have hc₁ : get_cell (required_check t₁ t₂.argument_defs).1 ci =
        get_cell t₁ ci :=
      get_cell_congr _ _ ci (required_check_cells t₁ t₂.argument_defs)
    have hc₂ : get_cell (required_check t₂ t₂.argument_defs).1 ci =
        get_cell t₂ ci :=
      get_cell_congr _ _ ci (required_check_cells t₂ t₂.argument_defs)
    refine ⟨?_, hrc.2, ?_⟩
    · rw [hc₁, hc₂]
      exact cell_eq_of_cellR _ _ (hR.2.2.2.2.2.2.2.2 ci) hflt₁
    · have hm₁ : map_find
          (required_check t₁ t₂.argument_defs).1.arguments_map "-b" =
          some ci := by
        rw [required_check_map]; exact hcell₁
      have hm₁b : map_find
          (required_check t₁ t₂.argument_defs).1.arguments_map "--bool" =
          some ci := by
        rw [required_check_map]; exact hcell₁b
      have hm₂ : map_find
          (required_check t₂ t₂.argument_defs).1.arguments_map "-b" =
          some ci := by
        rw [required_check_map]; exact hcell₂
      have hm₂b : map_find
          (required_check t₂ t₂.argument_defs).1.arguments_map "--bool" =
          some ci := by
        rw [required_check_map]; exact hcell₂b
      obtain ⟨g1, g2⟩ := get_arg_shared_cell _ ci hm₁ hm₁b
      obtain ⟨g3, g4⟩ := get_arg_shared_cell _ ci hm₂ hm₂b
      exact ⟨g1, g3, g2, g4⟩

/-- Witness for C8: the flag `{-b, --bool}` of `sC8flag`, with
`pre = ["prog"]` and `post = []`. -/
theorem C8_witness :
    get_cell (parse sC8flag (["prog"] ++ "-b" :: [])).1 0 =
      get_cell (parse sC8flag (["prog"] ++ "--bool" :: [])).1 0 ∧
    (parse sC8flag (["prog"] ++ "-b" :: [])).2 =
      (parse sC8flag (["prog"] ++ "--bool" :: [])).2 ∧
    get_arg_bool (parse sC8flag (["prog"] ++ "-b" :: [])).1 "-b" =
      get_arg_bool (parse sC8flag (["prog"] ++ "-b" :: [])).1 "--bool" :=
  ⟨(C8_theorem sC8flag 0 ["prog"] [] (by decide) (by decide) (by decide)).1,
   (C8_theorem sC8flag 0 ["prog"] [] (by decide) (by decide) (by decide)).2.1,
   (C8_theorem sC8flag 0 ["prog"] [] (by decide) (by decide)
     (by decide)).2.2.2.2.1⟩

/-- C9: the error callback never influences control flow or outcomes. For
every state, registering an error callback or not (`has_error_cb := b` versus
the state as-is) leaves the boolean result of `parse` and of `add_arg` (the
common implementation of register_argument / register_flag), and the final
stored cells, unmatched tokens, program name, alias index and definition
registry, all unchanged — only the emitted error events differ. -/
theorem C9_theorem (s : arger_c) (b : Bool) :
    (∀ args : List String,
      (parse { s with has_error_cb := b } args).2 = (parse s args).2 ∧
      (parse { s with has_error_cb := b } args).1.cells =
        (parse s args).1.cells ∧
      (parse { s with has_error_cb := b } args).1.unmatchd_args =
        (parse s args).1.unmatchd_args ∧
      (parse { s with has_error_cb := b } args).1.program_name =
        (parse s args).1.program_name ∧
      (parse { s with has_error_cb := b } args).1.arguments_map =
        (parse s args).1.arguments_map ∧
      (parse { s with has_error_cb := b } args).1.argument_defs =
        (parse s args).1.argument_defs) ∧
    (∀ arg : List String, ∀ desc : String, ∀ dv : arg_t, ∀ req fl : Bool,
      (add_arg { s with has_error_cb := b } arg desc dv req fl).2 =
        (add_arg s arg desc dv req fl).2 ∧
      (add_arg { s with has_error_cb := b } arg desc dv req fl).1.cells =
        (add_arg s arg desc dv req fl).1.cells ∧
      (add_arg { s with has_error_cb := b } arg desc dv req fl).1.arguments_map
        = (add_arg s arg desc dv req fl).1.arguments_map ∧
      (add_arg { s with has_error_cb := b } arg desc dv req fl).1.argument_defs
        = (add_arg s arg desc dv req fl).1.argument_defs) := by
  constructor
  · intro args
    have hbase : eqv_except_error_cb
        ({ ({ s with has_error_cb := b } : arger_c) with
            program_name := args.headD
              ({ s with has_error_cb := b } : arger_c).program_name })
        ({ s with program_name := args.headD s.program_name }) :=
      ⟨rfl, rfl, rfl, rfl, rfl, rfl, rfl⟩
    have hscan := scan_eqv_except_error_cb args.length args le_rfl _ _ hbase
    rcases hs₁ : scan ({ ({ s with has_error_cb := b } : arger_c) with
        program_name := args.headD
          ({ s with has_error_cb := b } : arger_c).program_name }) args
      with ⟨t₁, b₁⟩
    rcases hs₂ : scan ({ s with
        program_name := args.headD s.program_name } : arger_c) args
      with ⟨t₂, b₂⟩
    rw [hs₁, hs₂] at hscan
    obtain ⟨heqv, hb⟩ := hscan
    cases b₂ with
    | false =>
      have hb₁ : b₁ = false := by simpa using hb
      rw [hb₁] at hs₁
      rw [parse_of_scan_false { s with has_error_cb := b } args t₁ hs₁,
        parse_of_scan_false s args t₂ hs₂]
      exact ⟨rfl, heqv.2.2.2.2.1, heqv.2.2.1, heqv.2.2.2.2.2.2,
        heqv.2.2.2.2.2.1, heqv.2.2.2.1⟩
    | true =>
      have hb₁ : b₁ = true := by simpa using hb
      rw [hb₁] at hs₁
      rw [parse_of_scan_true { s with has_error_cb := b } args t₁ hs₁,
        parse_of_scan_true s args t₂ hs₂]
      rw [heqv.2.2.2.1]
      have hrc := required_check_eqv_except_error_cb t₂.argument_defs t₁ t₂
        heqv
      exact ⟨hrc.2, hrc.1.2.2.2.2.1, hrc.1.2.2.1, hrc.1.2.2.2.2.2.2,
        hrc.1.2.2.2.2.2.1, hrc.1.2.2.2.1⟩
  · intro arg desc dv req fl
    have hmap : ({ s with has_error_cb := b } : arger_c).arguments_map =
        s.arguments_map := rfl
    rcases hf : arg.find? (fun a => (map_find s.arguments_map a).isSome)
      with _ | a
    · simp only [add_arg, hmap, hf]
      exact ⟨trivial, trivial, trivial, trivial⟩
    · simp only [add_arg, hmap, hf]
      rw [emit_error_def, emit_error_def]
      exact ⟨trivial, rfl, rfl, rfl⟩

/-- C10: `parse` performs no rollback on failure. A scan that fails
(`ExpectedValue`) makes `parse` return exactly the state accumulated up to the
failure point — every stored value, `required_and_found` marker, unmatched
token and the program name are kept and observable afterwards; and the
post-scan required check (`MissingRequiredArgument` failure included) changes
no caller-observable field either — it only appends an error event. -/
theorem C10_theorem :
    (∀ s : arger_c, ∀ args : List String, ∀ s₁ : arger_c,
      scan { s with program_name := args.headD s.program_name } args =
        (s₁, false) →
      parse s args = (s₁, false) ∧
      get_unmatched_args (parse s args).1 = s₁.unmatchd_args ∧
      get_program_name (parse s args).1 = s₁.program_name ∧
      (parse s args).1.cells = s₁.cells) ∧
    (∀ s : arger_c, ∀ ds : List arg_def_s,
      (required_check s ds).1.cells = s.cells ∧
      (required_check s ds).1.unmatchd_args = s.unmatchd_args ∧
      (required_check s ds).1.program_name = s.program_name ∧
      (required_check s ds).1.arguments_map = s.arguments_map ∧
      (required_check s ds).1.argument_defs = s.argument_defs) ∧
    (∀ s : arger_c, ∀ args : List String, ∀ s₁ : arger_c,
      scan { s with program_name := args.headD s.program_name } args =
        (s₁, true) →
      (parse s args).1.cells = s₁.cells ∧
      get_unmatched_args (parse s args).1 = s₁.unmatchd_args ∧
      get_program_name (parse s args).1 = s₁.program_name) := by
  have hrc : ∀ s : arger_c, ∀ ds : List arg_def_s,
      (required_check s ds).1.cells = s.cells ∧
      (required_check s ds).1.unmatchd_args = s.unmatchd_args ∧
      (required_check s ds).1.program_name = s.program_name ∧
      (required_check s ds).1.arguments_map = s.arguments_map ∧
      (required_check s ds).1.argument_defs = s.argument_defs := by
    intro s ds
    induction ds with
    | nil => exact ⟨rfl, rfl, rfl, rfl, rfl⟩
    | cons d ds ih =>
      by_cases hc : (get_cell s d.allocated_arg).req_and_found = some false
      · rw [required_check, if_pos hc, emit_error_def]
        exact ⟨rfl, rfl, rfl, rfl, rfl⟩
      · rw [required_check, if_neg hc]
        exact ih
  refine ⟨?_, hrc, ?_⟩
  · intro s args s₁ h
    have hp := parse_of_scan_false s args s₁ h
    rw [get_unmatched_args, get_program_name, hp]
    exact ⟨rfl, rfl, rfl, rfl⟩
  · intro s args s₁ h
    have hp := parse_of_scan_true s args s₁ h
    rw [get_unmatched_args, get_program_name, hp]
    exact ⟨(hrc s₁ s₁.argument_defs).1, (hrc s₁ s₁.argument_defs).2.1,
      (hrc s₁ s₁.argument_defs).2.2.1⟩

/-- Witness for C10: the option `-n` of `sC6` fails with `ExpectedValue` after
the two unmatched tokens `"prog"` and `"w"` were recorded, and the failing
`parse` keeps them observable; the required check of `sC4`'s state after
scanning `["prog"]` changes no cells. -/
theorem C10_witness :
    parse sC6 ["prog", "w", "-n"] =
      ((scan { sC6 with program_name := "prog" } ["prog", "w", "-n"]).1,
        false) ∧
    get_unmatched_args (parse sC6 ["prog", "w", "-n"]).1 =
      (scan { sC6 with program_name := "prog" }
        ["prog", "w", "-n"]).1.unmatchd_args ∧
    (required_check sC4 sC4.argument_defs).1.cells = sC4.cells :=
  ⟨(C10_theorem.1 sC6 ["prog", "w", "-n"]
      (scan { sC6 with program_name := "prog" } ["prog", "w", "-n"]).1
      (by decide)).1,
   (C10_theorem.1 sC6 ["prog", "w", "-n"]
      (scan { sC6 with program_name := "prog" } ["prog", "w", "-n"]).1
      (by decide)).2.1,
   (C10_theorem.2.1 sC4 sC4.argument_defs).1⟩

end args
